import Mathlib

/-!
Shallow embedding of the airbyte-mssql-snowflake-sync repository
(scripts/airbyte_client.py and scripts/setup_pipeline.py).

Parsed JSON / YAML values (the Python objects produced by `resp.json()` and
`yaml.safe_load`) are modelled by `Json` (numbers as integers; no claim
involves fractional payloads).  Python exceptions the scripts can raise are
modelled by `PyErr`, and fallible code returns `Except PyErr _`.  HTTP
traffic is modelled by `HttpResponse` values supplied by an oracle: each
client method takes, as an extra argument, the response the remote API
returns for the single request that method sends.
-/

namespace AirbyteSync

/-- A parsed JSON / YAML value, i.e. the Python object `resp.json()` or
`yaml.safe_load` produces. -/
inductive Json where
  | null
  | bool (b : Bool)
  | num (n : Int)
  | str (s : String)
  | arr (elems : List Json)
  | obj (fields : List (String × Json))

/-- Python exceptions raised by the scripts.  `airbyteAPIError` models
`AirbyteAPIError`, `keyError` models `KeyError`, `noStreams` and
`missingTables` model the two plain `Exception`s raised by
`build_sync_catalog`, and `otherError` models the remaining built-in errors
(`AttributeError`, `TypeError`).  All five are Python `Exception`s, so an
`except Exception` handler catches every constructor while
`except AirbyteAPIError` and `except KeyError` catch only their own kind. -/
inductive PyErr where
  | airbyteAPIError (msg : String)
  | keyError (key : String)
  | noStreams (tables : List String)
  | missingTables (missing : Finset String)
  | otherError (msg : String)

/-- Python `d[k]` on a parsed JSON value: `KeyError` on an absent key,
`TypeError` when the value is not a dict. -/
def Json.index (j : Json) (k : String) : Except PyErr Json :=
  match j with
  | .obj fields =>
    match fields.lookup k with
    | some v => .ok v
    | none => .error (.keyError k)
  | _ => .error (.otherError "TypeError")

/-- Python `d.get(k)` (returning `None` for an absent key): `AttributeError`
when the value is not a dict (lists, strings, numbers have no `.get`). -/
def Json.getOpt (j : Json) (k : String) : Except PyErr (Option Json) :=
  match j with
  | .obj fields => .ok (fields.lookup k)
  | _ => .error (.otherError "AttributeError")

/-- Python `d.get(k, default)`. -/
def Json.getD (j : Json) (k : String) (d : Json) : Except PyErr Json :=
  match j.getOpt k with
  | .error e => .error e
  | .ok o => .ok (o.getD d)

/-- Python truthiness of a parsed JSON value. -/
def Json.falsy : Json → Bool
  | .null => true
  | .bool b => !b
  | .num n => n == 0
  | .str s => s.isEmpty
  | .arr elems => elems.isEmpty
  | .obj fields => fields.isEmpty

mutual

/-- Rendering of a parsed JSON value into an f-string, modelling Python's
`str()` (quoting of nested strings is simplified; every claim only needs
that the rendering is a function of the value). -/
def Json.render : Json → String
  | .null => "None"
  | .bool b => if b then "True" else "False"
  | .num n => toString n
  | .str s => s
  | .arr elems => "[" ++ renderElems elems ++ "]"
  | .obj fields => "\x7b" ++ renderFields fields ++ "\x7d"

/-- Comma-separated rendering of the elements of a JSON array. -/
def renderElems : List Json → String
  | [] => ""
  | [x] => Json.render x
  | x :: xs => Json.render x ++ ", " ++ renderElems xs

/-- Comma-separated rendering of the fields of a JSON object. -/
def renderFields : List (String × Json) → String
  | [] => ""
  | [(k, v)] => k ++ ": " ++ Json.render v
  | (k, v) :: xs => k ++ ": " ++ Json.render v ++ ", " ++ renderFields xs

end

/-- Python `x or y` as used in `payload.get("message") or payload`: the
first operand when it is truthy, the second one otherwise (also when the
key was absent, i.e. `get` returned `None`). -/
def pyOrD : Option Json → Json → Json
  | some v, d => if v.falsy then d else v
  | none, d => d

/-- One HTTP response as the `requests` library presents it: the status
code, the raw body text, and `some` parsed value when the body is
well-formed JSON (`none` models a `resp.json()` call that raises
`ValueError`). -/
structure HttpResponse where
  status_code : Nat
  text : String
  body : Option Json

/-- The `requests` library's `Response.ok`, the success test used by
`_post` and `_get`: `false` exactly for the client/server error statuses
(400 ≤ code < 600). -/
def HttpResponse.ok (r : HttpResponse) : Bool :=
  !(decide (400 ≤ r.status_code) && decide (r.status_code < 600))

/-- The message of the error raised for a non-success response:
`f"Airbyte API {method} {path} → HTTP {resp.status_code}: {msg}"`, with
`method` being `POST` in `_post` and `GET` in `_get`. -/
def httpErrMsg (method path : String) (status : Nat) (rendered : String) : String :=
  "Airbyte API " ++ method ++ " " ++ path ++ " → HTTP " ++ toString status ++ ": " ++ rendered

/-- `AirbyteClient._post` with the HTTP exchange abstracted into the
oracle-supplied response `r`: parse the body, raising `AirbyteAPIError` on a
non-JSON body; then, on a non-success status, raise `AirbyteAPIError`
quoting the body's `message` field when that field is truthy and the whole
body otherwise.  On a non-dict JSON body the `payload.get("message")` call
itself raises `AttributeError`. -/
def postRequest (api_url path : String) (r : HttpResponse) : Except PyErr Json :=
  match r.body with
  | none =>
    .error (.airbyteAPIError ("Non-JSON response from " ++ (api_url ++ path) ++ ": " ++ r.text))
  | some payload =>
    if r.ok then
      .ok payload
    else
      match payload.getOpt "message" with
      | .error e => .error e
      | .ok m =>
        .error (.airbyteAPIError (httpErrMsg "POST" path r.status_code (Json.render (pyOrD m payload))))

/-- `AirbyteClient._get`, mirroring `postRequest`. -/
def getRequest (api_url path : String) (r : HttpResponse) : Except PyErr Json :=
  match r.body with
  | none =>
    .error (.airbyteAPIError ("Non-JSON response from " ++ (api_url ++ path) ++ ": " ++ r.text))
  | some payload =>
    if r.ok then
      .ok payload
    else
      match payload.getOpt "message" with
      | .error e => .error e
      | .ok m =>
        .error (.airbyteAPIError (httpErrMsg "GET" path r.status_code (Json.render (pyOrD m payload))))

/-- `AirbyteClient.create_source`: POST `/sources/create`, then extract the
`sourceId` field of the response body. -/
def create_source (api_url : String) (r : HttpResponse) : Except PyErr Json :=
  match postRequest api_url "/sources/create" r with
  | .error e => .error e
  | .ok resp => resp.index "sourceId"

/-- Python `resp.get("status") == "succeeded"`: `True` exactly when the
field is present and is the string `"succeeded"` (comparison of a string
with a value of any other type is `False` in Python). -/
def statusSucceeded : Option Json → Bool
  | some (.str s) => s == "succeeded"
  | _ => false

/-- `AirbyteClient.check_source`: POST `/sources/check_connection`, then
return whether the response's `status` field equals `"succeeded"`. -/
def check_source (api_url : String) (r : HttpResponse) : Except PyErr Bool :=
  match postRequest api_url "/sources/check_connection" r with
  | .error e => .error e
  | .ok resp =>
    match resp.getOpt "status" with
    | .error e => .error e
    | .ok st => .ok (statusSucceeded st)

/-- `AirbyteClient.create_destination`: POST `/destinations/create`, then
extract the `destinationId` field of the response body. -/
def create_destination (api_url : String) (r : HttpResponse) : Except PyErr Json :=
  match postRequest api_url "/destinations/create" r with
  | .error e => .error e
  | .ok resp => resp.index "destinationId"

/-- `AirbyteClient.check_destination`: POST `/destinations/check_connection`,
then return whether the response's `status` field equals `"succeeded"`. -/
def check_destination (api_url : String) (r : HttpResponse) : Except PyErr Bool :=
  match postRequest api_url "/destinations/check_connection" r with
  | .error e => .error e
  | .ok resp =>
    match resp.getOpt "status" with
    | .error e => .error e
    | .ok st => .ok (statusSucceeded st)

/-- `AirbyteClient.create_connection`: POST `/connections/create`, then
extract the `connectionId` field of the response body. -/
def create_connection (api_url : String) (r : HttpResponse) : Except PyErr Json :=
  match postRequest api_url "/connections/create" r with
  | .error e => .error e
  | .ok resp => resp.index "connectionId"

/-- `AirbyteClient.get_connection`: GET `/connections/get`, returning the
raw response body. -/
def get_connection (api_url : String) (r : HttpResponse) : Except PyErr Json :=
  getRequest api_url "/connections/get" r

/-- Python truthiness of the optional `database` / `schema` arguments of
`discover_schema`: truthy exactly for a present, non-empty string. -/
def optStrTruthy : Option String → Bool
  | some s => !s.isEmpty
  | none => false

/-- Python truthiness of the optional `tables` argument of
`discover_schema`: truthy exactly for a present, non-empty list. -/
def optListTruthy : Option (List String) → Bool
  | some l => !l.isEmpty
  | none => false

/-- The request payload built by `AirbyteClient.discover_schema`: always
`sourceId` and `connectorType`; when at least one of `database`, `schema`,
`tables` is truthy, additionally one `schema` object holding exactly the
truthy ones among them, inserted in that order. -/
def discover_schema_payload (source_id : String) (database schema : Option String)
    (tables : Option (List String)) : Json :=
  if optStrTruthy database || optStrTruthy schema || optListTruthy tables then
    Json.obj [("sourceId", Json.str source_id), ("connectorType", Json.str "source"),
      ("schema", Json.obj (
        (if optStrTruthy database then [("database", Json.str (database.getD ""))] else []) ++
        (if optStrTruthy schema then [("schema", Json.str (schema.getD ""))] else []) ++
        (if optListTruthy tables then [("tables", Json.arr ((tables.getD []).map Json.str))] else [])))]
  else
    Json.obj [("sourceId", Json.str source_id), ("connectorType", Json.str "source")]

/-- Python membership test `name in tables` for a list of strings: a parsed
JSON value compares equal to a Python `str` only when it is that string. -/
def jsonInStrList (name : Json) (tables : List String) : Bool :=
  match name with
  | .str s => tables.contains s
  | _ => false

/-- The catalog entry dict built by `build_sync_catalog` for one retained
stream (name, schema and supported modes copied from discovery, the
caller-supplied sync modes, and the source-defined cursor / primary key
defaulting to `[]`). -/
def mkCatalogEntry (nm js ssm sync_mode dest_sync_mode cf pk : Json) : Json :=
  Json.obj [("stream", Json.obj [("name", nm), ("jsonSchema", js), ("supportedSyncModes", ssm)]),
    ("syncMode", sync_mode), ("destinationSyncMode", dest_sync_mode),
    ("cursorField", cf), ("primaryKey", pk)]

/-- One iteration of the filtering loop of `build_sync_catalog`: look up the
stream's name; when the name is in `tables`, build the catalog entry
(`some`), otherwise skip the stream (`none`).  Each dict access can raise. -/
def buildEntry (tables : List String) (sync_mode dest_sync_mode : Json)
    (stream_entry : Json) : Except PyErr (Option Json) :=
  match stream_entry.index "stream" with
  | .error e => .error e
  | .ok stj =>
    match stj.index "name" with
    | .error e => .error e
    | .ok nm =>
      if jsonInStrList nm tables then
        match stj.index "jsonSchema" with
        | .error e => .error e
        | .ok js =>
          match stj.index "supportedSyncModes" with
          | .error e => .error e
          | .ok ssm =>
            match stj.getOpt "sourceDefinedCursor" with
            | .error e => .error e
            | .ok cur =>
              match stj.getOpt "sourceDefinedPrimaryKey" with
              | .error e => .error e
              | .ok pk =>
                .ok (some (mkCatalogEntry nm js ssm sync_mode dest_sync_mode
                  (cur.getD (Json.arr [])) (pk.getD (Json.arr []))))
      else .ok none

/-- The filtering loop of `build_sync_catalog` over the whole discovered
stream list, in order. -/
def filterStreams (tables : List String) (sync_mode dest_sync_mode : Json) :
    List Json → Except PyErr (List Json)
  | [] => .ok []
  | e :: rest =>
    match buildEntry tables sync_mode dest_sync_mode e with
    | .error err => .error err
    | .ok none => filterStreams tables sync_mode dest_sync_mode rest
    | .ok (some st) =>
      match filterStreams tables sync_mode dest_sync_mode rest with
      | .error err => .error err
      | .ok l => .ok (st :: l)

/-- The expression `stream_entry["stream"]["name"]`. -/
def entryName (e : Json) : Except PyErr Json :=
  match e.index "stream" with
  | .error err => .error err
  | .ok stj => stj.index "name"

/-- The name of a stream entry when it is a string (`none` when absent or
not a string). -/
def entryNameStr (e : Json) : Option String :=
  match entryName e with
  | .ok (.str s) => some s
  | _ => none

/-- The names of a whole stream list, provided every entry's name is a
string. -/
def entryNamesStr : List Json → Option (List String)
  | [] => some []
  | e :: rest =>
    match entryNameStr e, entryNamesStr rest with
    | some n, some ns => some (n :: ns)
    | _, _ => none

/-- The string names occurring in a list of built catalog entries, i.e. the
set comprehension `{s["stream"]["name"] for s in filtered}` restricted to
its string elements (subtracting a non-string name never removes a `str`
from `set(tables)`, so the restriction does not change the missing set). -/
def catalogNames (filtered : List Json) : List String :=
  filtered.filterMap entryNameStr

/-- Lines 71–101 of `setup_pipeline.build_sync_catalog`: everything after
the `discover_schema` call, which is composed in `discover_then_build`.
Fail when discovery returned no streams; filter the streams to the
requested tables; fail naming the missing tables when the retained count
differs from the requested count. -/
def build_sync_catalog (all_streams : List Json) (tables : List String)
    (sync_mode dest_sync_mode : Json) : Except PyErr Json :=
  if all_streams.isEmpty then
    .error (.noStreams tables)
  else
    match filterStreams tables sync_mode dest_sync_mode all_streams with
    | .error e => .error e
    | .ok filtered =>
      if filtered.length = tables.length then
        .ok (Json.obj [("streams", Json.arr filtered)])
      else
        .error (.missingTables
          ((tables.filter (fun t => !(catalogNames filtered).contains t)).toFinset))

/-- `build_sync_catalog` as `main` runs it: the `discover_schema` POST comes
first (its response is `r`), then `discover_resp.get("streams", [])` is
filtered.  Iterating over a non-list `streams` value is modelled as a
`TypeError`. -/
def discover_then_build (api_url : String) (r : HttpResponse) (tables : List String)
    (sync_mode dest_sync_mode : Json) : Except PyErr Json :=
  match postRequest api_url "/connections/discover_schema" r with
  | .error e => .error e
  | .ok resp =>
    match resp.getD "streams" (Json.arr []) with
    | .error e => .error e
    | .ok (Json.arr all_streams) => build_sync_catalog all_streams tables sync_mode dest_sync_mode
    | .ok _ => .error (.otherError "TypeError")

/-- The stream list of a built catalog value (inverse of the `.ok` shape
`build_sync_catalog` returns). -/
def catalogStreamList : Json → List Json
  | .obj [("streams", Json.arr filtered)] => filtered
  | _ => []

/-- The fixed base URL `main` instantiates the client with. -/
def apiUrl : String := "https://api.airbyte.com/v1"

/-- The DB-related environment variables `main` requires, in the order they
are checked. -/
def requiredVars : List String :=
  ["SQLSERVER_HOST", "SQLSERVER_PORT", "SQLSERVER_USERNAME", "SQLSERVER_PASSWORD",
   "SNOWFLAKE_ACCOUNT", "SNOWFLAKE_USERNAME", "SNOWFLAKE_PASSWORD",
   "SNOWFLAKE_ROLE", "SNOWFLAKE_WAREHOUSE"]

/-- The environment validation at the top of `main`: the name of the first
required environment variable that is absent, `none` when all are set. -/
def envCheck (env : List (String × String)) : Option String :=
  if (env.lookup "AIRBYTE_API_TOKEN").isNone then some "AIRBYTE_API_TOKEN"
  else if (env.lookup "AIRBYTE_WORKSPACE_ID").isNone then some "AIRBYTE_WORKSPACE_ID"
  else requiredVars.find? (fun v => (env.lookup v).isNone)

/-- One `try` block of `main` reading three keys out of a loaded YAML
document, stopping at the first failing access. -/
def cfgExtract3 (cfg : Json) (k1 k2 k3 : String) : Except PyErr (Json × Json × Json) :=
  match cfg.index k1 with
  | .error e => .error e
  | .ok v1 =>
    match cfg.index k2 with
    | .error e => .error e
    | .ok v2 =>
      match cfg.index k3 with
      | .error e => .error e
      | .ok v3 => .ok (v1, v2, v3)

/-- The first `KeyError` raised by the connection.yaml `try` block of
`main`, which reads `name`, `namespaceFormat` (via `get`), `schedule`,
`tables`, `syncMode`, `destinationSyncMode` in that order: `some k` when
the first failing access raises `KeyError(k)`, `none` when every access
succeeds or the first failure is not a `KeyError` (and so is not caught by
the block's `except KeyError`). -/
def connKeyError (cfg : Json) : Option String :=
  match cfg.index "name" with
  | .error (.keyError k) => some k
  | .error _ => none
  | .ok _ =>
    match cfg.getOpt "namespaceFormat" with
    | .error _ => none
    | .ok _ =>
      match cfg.index "schedule" with
      | .error (.keyError k) => some k
      | .error _ => none
      | .ok _ =>
        match cfg.index "tables" with
        | .error (.keyError k) => some k
        | .error _ => none
        | .ok _ =>
          match cfg.index "syncMode" with
          | .error (.keyError k) => some k
          | .error _ => none
          | .ok _ =>
            match cfg.index "destinationSyncMode" with
            | .error (.keyError k) => some k
            | .error _ => none
            | .ok _ => none

/-- The six HTTP responses the remote API returns for the six requests
`main` can send, in program order. -/
structure RemoteOracle where
  createSourceResp : HttpResponse
  checkSourceResp : HttpResponse
  createDestinationResp : HttpResponse
  checkDestinationResp : HttpResponse
  discoverResp : HttpResponse
  createConnectionResp : HttpResponse

/-- How one run of `main` ends: full success with the three created ids,
`sys.exit(1)` after an `[ERROR]` diagnostic, or a Python exception that no
handler catches. -/
inductive Outcome where
  | ok (sourceId destinationId connectionId : Json)
  | fail (msg : String)
  | uncaught (e : PyErr)

/-- Whether an outcome is a reported error followed by `sys.exit(1)`. -/
def Outcome.isFail : Outcome → Bool
  | .fail _ => true
  | _ => false

/-- Whether a Python exception is caught by `except AirbyteAPIError`. -/
def PyErr.isAirbyteAPIError : PyErr → Bool
  | .airbyteAPIError _ => true
  | _ => false

/-- Rendering of a Python exception into an f-string diagnostic (the
messages of the two catalog exceptions are abbreviated: Python renders the
embedded list / set, whose iteration order is unspecified for sets). -/
def PyErr.render : PyErr → String
  | .airbyteAPIError m => m
  | .keyError k => k
  | .noStreams _ => "No streams returned from discover_schema"
  | .missingTables _ => "Some tables were not discovered"
  | .otherError m => m

/-- Reads a parsed JSON value as a list of strings (the `tables` entry of
connection.yaml).  `main` passes the value through to `build_sync_catalog`
unchecked; the model covers string table names, the only shape the claims
and the config format use. -/
def jsonStringList : Json → Option (List String)
  | .arr elems => elems.mapM (fun j => match j with | .str s => some s | _ => none)
  | _ => none

/-- `setup_pipeline.main`, with the three YAML documents given as
already-parsed values (environment substitution and YAML parsing are out of
scope per the spec) and the HTTP exchanges supplied by the oracle.  Returns
the outcome together with the request paths actually sent, in order.
`create_source`, `create_destination` and `create_connection` are wrapped
in `except AirbyteAPIError`; the two config `try` blocks catch `KeyError`;
`build_sync_catalog` is wrapped in `except Exception`, which catches every
`PyErr`; the two check calls are not wrapped at all. -/
def mainRun (env : List (String × String)) (mssqlCfg snowCfg connCfg : Json)
    (o : RemoteOracle) : Outcome × List String :=
  match envCheck env with
  | some v => (.fail ("Missing required environment variable: " ++ v), [])
  | none =>
  match cfgExtract3 mssqlCfg "name" "definitionId" "connectionConfiguration" with
  | .error (.keyError k) => (.fail ("mssql_source.yaml missing key: " ++ k), [])
  | .error e => (.uncaught e, [])
  | .ok _src =>
  match create_source apiUrl o.createSourceResp with
  | .error e =>
    if e.isAirbyteAPIError then
      (.fail ("Failed to create MSSQL source: " ++ e.render), ["/sources/create"])
    else (.uncaught e, ["/sources/create"])
  | .ok source_id =>
  match check_source apiUrl o.checkSourceResp with
  | .error e => (.uncaught e, ["/sources/create", "/sources/check_connection"])
  | .ok false => (.fail "MSSQL source check failed.", ["/sources/create", "/sources/check_connection"])
  | .ok true =>
  match cfgExtract3 snowCfg "name" "definitionId" "connectionConfiguration" with
  | .error (.keyError k) =>
    (.fail ("snowflake_destination.yaml missing key: " ++ k),
      ["/sources/create", "/sources/check_connection"])
  | .error e => (.uncaught e, ["/sources/create", "/sources/check_connection"])
  | .ok _dst =>
  match create_destination apiUrl o.createDestinationResp with
  | .error e =>
    if e.isAirbyteAPIError then
      (.fail ("Failed to create Snowflake destination: " ++ e.render),
        ["/sources/create", "/sources/check_connection", "/destinations/create"])
    else
      (.uncaught e, ["/sources/create", "/sources/check_connection", "/destinations/create"])
  | .ok destination_id =>
  match check_destination apiUrl o.checkDestinationResp with
  | .error e =>
    (.uncaught e, ["/sources/create", "/sources/check_connection", "/destinations/create",
      "/destinations/check_connection"])
  | .ok false =>
    (.fail "Snowflake destination check failed.",
      ["/sources/create", "/sources/check_connection", "/destinations/create",
       "/destinations/check_connection"])
  | .ok true =>
  match connCfg.index "name" with
  | .error (.keyError k) =>
    (.fail ("connection.yaml missing key: " ++ k),
      ["/sources/create", "/sources/check_connection", "/destinations/create",
       "/destinations/check_connection"])
  | .error e =>
    (.uncaught e, ["/sources/create", "/sources/check_connection", "/destinations/create",
      "/destinations/check_connection"])
  | .ok _conn_name =>
  match connCfg.getOpt "namespaceFormat" with
  | .error e =>
    (.uncaught e, ["/sources/create", "/sources/check_connection", "/destinations/create",
      "/destinations/check_connection"])
  | .ok _nsf =>
  match connCfg.index "schedule" with
  | .error (.keyError k) =>
    (.fail ("connection.yaml missing key: " ++ k),
      ["/sources/create", "/sources/check_connection", "/destinations/create",
       "/destinations/check_connection"])
  | .error e =>
    (.uncaught e, ["/sources/create", "/sources/check_connection", "/destinations/create",
      "/destinations/check_connection"])
  | .ok _schedule =>
  match connCfg.index "tables" with
  | .error (.keyError k) =>
    (.fail ("connection.yaml missing key: " ++ k),
      ["/sources/create", "/sources/check_connection", "/destinations/create",
       "/destinations/check_connection"])
  | .error e =>
    (.uncaught e, ["/sources/create", "/sources/check_connection", "/destinations/create",
      "/destinations/check_connection"])
  | .ok tablesJ =>
  match connCfg.index "syncMode" with
  | .error (.keyError k) =>
    (.fail ("connection.yaml missing key: " ++ k),
      ["/sources/create", "/sources/check_connection", "/destinations/create",
       "/destinations/check_connection"])
  | .error e =>
    (.uncaught e, ["/sources/create", "/sources/check_connection", "/destinations/create",
      "/destinations/check_connection"])
  | .ok syncModeJ =>
  match connCfg.index "destinationSyncMode" with
  | .error (.keyError k) =>
    (.fail ("connection.yaml missing key: " ++ k),
      ["/sources/create", "/sources/check_connection", "/destinations/create",
       "/destinations/check_connection"])
  | .error e =>
    (.uncaught e, ["/sources/create", "/sources/check_connection", "/destinations/create",
      "/destinations/check_connection"])
  | .ok destSyncModeJ =>
  match connCfg.getOpt "autoPropagateSchema" with
  | .error e =>
    (.uncaught e, ["/sources/create", "/sources/check_connection", "/destinations/create",
      "/destinations/check_connection"])
  | .ok _aps =>
  match jsonStringList tablesJ with
  | none =>
    (.uncaught (.otherError "unsupported tables value"),
      ["/sources/create", "/sources/check_connection", "/destinations/create",
       "/destinations/check_connection"])
  | some tables =>
  match discover_then_build apiUrl o.discoverResp tables syncModeJ destSyncModeJ with
  | .error e =>
    (.fail ("build_sync_catalog failed: " ++ e.render),
      ["/sources/create", "/sources/check_connection", "/destinations/create",
       "/destinations/check_connection", "/connections/discover_schema"])
  | .ok _sync_catalog =>
  match create_connection apiUrl o.createConnectionResp with
  | .error e =>
    if e.isAirbyteAPIError then
      (.fail ("Failed to create connection: " ++ e.render),
        ["/sources/create", "/sources/check_connection", "/destinations/create",
         "/destinations/check_connection", "/connections/discover_schema", "/connections/create"])
    else
      (.uncaught e,
        ["/sources/create", "/sources/check_connection", "/destinations/create",
         "/destinations/check_connection", "/connections/discover_schema", "/connections/create"])
  | .ok connection_id =>
    (.ok source_id destination_id connection_id,
      ["/sources/create", "/sources/check_connection", "/destinations/create",
       "/destinations/check_connection", "/connections/discover_schema", "/connections/create"])

/-- A well-formed discovery stream entry as `discover_schema` returns it:
`{"stream": {"name": …, "jsonSchema": …, "supportedSyncModes": …}}` with the
source-defined cursor and primary key present when supplied. -/
def mkStreamEntry (nm js ssm : Json) (cur pk : Option Json) : Json :=
  Json.obj [("stream", Json.obj (
    [("name", nm), ("jsonSchema", js), ("supportedSyncModes", ssm)] ++
    (match cur with | some c => [("sourceDefinedCursor", c)] | none => []) ++
    (match pk with | some p => [("sourceDefinedPrimaryKey", p)] | none => [])))]

/-- Occurrence of `sub` as a contiguous substring of `hay`, phrased over the
character lists. -/
def strContains (hay sub : String) : Prop :=
  ∃ a b, hay.data = a ++ sub.data ++ b

/-- A complete environment (all eleven required variables set), used in the
concrete orchestrator runs. -/
def envAll : List (String × String) :=
  [("AIRBYTE_API_TOKEN", "tok"), ("AIRBYTE_WORKSPACE_ID", "ws"),
   ("SQLSERVER_HOST", "h"), ("SQLSERVER_PORT", "1433"), ("SQLSERVER_USERNAME", "u"),
   ("SQLSERVER_PASSWORD", "pw"), ("SNOWFLAKE_ACCOUNT", "acc"), ("SNOWFLAKE_USERNAME", "su"),
   ("SNOWFLAKE_PASSWORD", "sp"), ("SNOWFLAKE_ROLE", "role"), ("SNOWFLAKE_WAREHOUSE", "wh")]

/-- A well-formed mssql_source.yaml document. -/
def mssqlCfgOk : Json :=
  Json.obj [("name", .str "mssql-src"), ("definitionId", .str "def-src"),
    ("connectionConfiguration", Json.obj [])]

/-- A well-formed snowflake_destination.yaml document. -/
def snowCfgOk : Json :=
  Json.obj [("name", .str "snowflake-dst"), ("definitionId", .str "def-dst"),
    ("connectionConfiguration", Json.obj [])]

/-- A well-formed connection.yaml document requesting the single table `A`. -/
def connCfgOk : Json :=
  Json.obj [("name", .str "conn"), ("schedule", Json.obj [("units", .num 5)]),
    ("tables", Json.arr [.str "A"]), ("syncMode", .str "incremental"),
    ("destinationSyncMode", .str "append_dedup")]

/-- A connection.yaml document that is missing the required `schedule` key. -/
def connCfgNoSchedule : Json :=
  Json.obj [("name", .str "conn"), ("tables", Json.arr [.str "A"]),
    ("syncMode", .str "incremental"), ("destinationSyncMode", .str "append_dedup")]

/-- A connection.yaml document that is missing the required `tables` key. -/
def connCfgNoTables : Json :=
  Json.obj [("name", .str "conn"), ("schedule", Json.obj [("units", .num 5)]),
    ("syncMode", .str "incremental"), ("destinationSyncMode", .str "append_dedup")]

/-- An oracle under which every remote call succeeds and discovery returns
the single stream `A`. -/
def oracleHappy : RemoteOracle :=
  ⟨⟨200, "", some (Json.obj [("sourceId", .str "src-1")])⟩,
   ⟨200, "", some (Json.obj [("status", .str "succeeded")])⟩,
   ⟨200, "", some (Json.obj [("destinationId", .str "dst-1")])⟩,
   ⟨200, "", some (Json.obj [("status", .str "succeeded")])⟩,
   ⟨200, "", some (Json.obj [("streams",
      Json.arr [mkStreamEntry (.str "A") .null (.arr []) none none])])⟩,
   ⟨200, "", some (Json.obj [("connectionId", .str "conn-1")])⟩⟩

/-- `oracleHappy` except that the create-source response body, though a
success-status JSON object, lacks the `sourceId` field. -/
def oracleNoSourceId : RemoteOracle :=
  { oracleHappy with createSourceResp := ⟨200, "", some (Json.obj [("id", .str "src-1")])⟩ }

/-- `oracleHappy` except that the create-connection response body, though a
success-status JSON object, lacks the `connectionId` field. -/
def oracleNoConnectionId : RemoteOracle :=
  { oracleHappy with createConnectionResp := ⟨200, "", some (Json.obj [("id", .str "c-1")])⟩ }

section Helpers

/-- Splitting a concatenation exhibits a substring occurrence. -/
theorem strContains_chunk (pre mid post hay : String)
    (h : hay.data = pre.data ++ mid.data ++ post.data) : strContains hay mid :=
  ⟨pre.data, post.data, h⟩

/-- A nodup list filtered by membership in `ts` is strictly shorter than
`ts` whenever some element of `ts` is missing from the list. -/
theorem filter_length_lt (ss ts : List String) (h : ss.Nodup) (t : String)
    (ht : t ∈ ts) (hts : t ∉ ss) :
    (ss.filter (fun s => ts.contains s)).length < ts.length := by
  have hnd : (ss.filter (fun s => ts.contains s)).Nodup := h.filter _
  have hsub : (ss.filter (fun s => ts.contains s)).toFinset ⊆ ts.toFinset.erase t := by
    intro x hx
    rw [List.mem_toFinset, List.mem_filter] at hx
    obtain ⟨hxs, hxt⟩ := hx
    have hxt' : x ∈ ts := by simpa using hxt
    refine Finset.mem_erase.mpr ⟨?_, List.mem_toFinset.mpr hxt'⟩
    rintro rfl
    exact hts hxs
  calc (ss.filter (fun s => ts.contains s)).length
      = (ss.filter (fun s => ts.contains s)).toFinset.card :=
        (List.toFinset_card_of_nodup hnd).symm
    _ ≤ (ts.toFinset.erase t).card := Finset.card_le_card hsub
    _ < ts.toFinset.card := Finset.card_erase_lt_of_mem (List.mem_toFinset.mpr ht)
    _ ≤ ts.length := @List.toFinset_card_le String _ ts

/-- When the membership-filtered nodup list is as long as `ts`, every
element of `ts` occurs in it exactly once. -/
theorem count_filter_eq_one (ss ts : List String) (h : ss.Nodup)
    (hlen : (ss.filter (fun s => ts.contains s)).length = ts.length)
    (t : String) (ht : t ∈ ts) :
    (ss.filter (fun s => ts.contains s)).count t = 1 := by
  have hts : t ∈ ss := by
    by_contra hts
    exact absurd hlen (Nat.ne_of_lt (filter_length_lt ss ts h t ht hts))
  have hmem : t ∈ ss.filter (fun s => ts.contains s) := by
    rw [List.mem_filter]
    exact ⟨hts, by simpa using ht⟩
  exact List.count_eq_one_of_mem (h.filter _) hmem

/-- The name of a built catalog entry is the name it was built from. -/
theorem entryNameStr_mkCatalogEntry (n : String) (js ssm sm dm cf pk : Json) :
    entryNameStr (mkCatalogEntry (.str n) js ssm sm dm cf pk) = some n := rfl

/-- What one loop iteration does to a stream entry whose name is the string
`n`: when the name is in `tables` it yields a catalog entry carrying that
name, otherwise it skips the stream. -/
theorem buildEntry_of_name (tables : List String) (sm dm : Json) (e : Json) (n : String)
    (hne : entryNameStr e = some n) (res : Option Json)
    (hok : buildEntry tables sm dm e = .ok res) :
    (∃ st, res = some st ∧ entryNameStr st = some n ∧ tables.contains n = true) ∨
    (res = none ∧ tables.contains n = false) := by
  cases hstream : e.index "stream" with
  | error err => simp [entryNameStr, entryName, hstream] at hne
  | ok stj =>
    simp only [entryNameStr, entryName, hstream] at hne
    simp only [buildEntry, hstream] at hok
    cases hname : stj.index "name" with
    | error err => simp [hname] at hne
    | ok nm =>
      simp only [hname] at hne hok
      cases nm with
      | str s =>
        simp only [Option.some.injEq] at hne
        subst hne
        simp only [jsonInStrList] at hok
        by_cases hc : tables.contains s
        · rw [if_pos hc] at hok
          cases hjs : stj.index "jsonSchema" with
          | error err => simp [hjs] at hok
          | ok js =>
            simp only [hjs] at hok
            cases hssm : stj.index "supportedSyncModes" with
            | error err => simp [hssm] at hok
            | ok ssm =>
              simp only [hssm] at hok
              cases hcur : stj.getOpt "sourceDefinedCursor" with
              | error err => simp [hcur] at hok
              | ok cur =>
                simp only [hcur] at hok
                cases hpk : stj.getOpt "sourceDefinedPrimaryKey" with
                | error err => simp [hpk] at hok
                | ok pk =>
                  simp only [hpk, Except.ok.injEq] at hok
                  subst hok
                  exact Or.inl ⟨_, rfl, entryNameStr_mkCatalogEntry s js ssm sm dm _ _, hc⟩
        · rw [if_neg hc] at hok
          simp only [Except.ok.injEq] at hok
          subst hok
          exact Or.inr ⟨rfl, by simpa using hc⟩
      | null => simp at hne
      | bool b => simp at hne
      | num m => simp at hne
      | arr xs => simp at hne
      | obj fs => simp at hne

/-- The names of the catalog entries a successful filtering pass returns
are exactly the discovered names that are in `tables`, in discovery order,
and each retained stream contributes exactly one entry. -/
theorem filterStreams_names (tables : List String) (sm dm : Json) (l : List Json) :
    ∀ (ss : List String) (fl : List Json),
      entryNamesStr l = some ss →
      filterStreams tables sm dm l = .ok fl →
      catalogNames fl = ss.filter (fun s => tables.contains s) ∧
      fl.length = (ss.filter (fun s => tables.contains s)).length := by
  induction l with
  | nil =>
    intro ss fl hss hfl
    simp only [entryNamesStr, Option.some.injEq] at hss
    simp only [filterStreams, Except.ok.injEq] at hfl
    subst hss
    subst hfl
    simp [catalogNames]
  | cons e rest ih =>
    intro ss fl hss hfl
    cases hne : entryNameStr e with
    | none => simp [entryNamesStr, hne] at hss
    | some n =>
      cases hrest : entryNamesStr rest with
      | none => simp [entryNamesStr, hne, hrest] at hss
      | some ns =>
        simp only [entryNamesStr, hne, hrest, Option.some.injEq] at hss
        subst hss
        cases hbe : buildEntry tables sm dm e with
        | error err => simp [filterStreams, hbe] at hfl
        | ok res =>
          simp only [filterStreams, hbe] at hfl
          rcases buildEntry_of_name tables sm dm e n hne res hbe with
            ⟨st, hres, hst, hc⟩ | ⟨hres, hc⟩
          · subst hres
            cases hfr : filterStreams tables sm dm rest with
            | error err => simp [hfr] at hfl
            | ok fl' =>
              simp only [hfr, Except.ok.injEq] at hfl
              subst hfl
              obtain ⟨ha, hb⟩ := ih ns fl' hrest hfr
              constructor
              · simp only [catalogNames, List.filterMap_cons, hst]
                rw [List.filter_cons, if_pos (by simpa using hc)]
                simpa [catalogNames] using ha
              · simp only [List.length_cons, hb]
                rw [List.filter_cons, if_pos (by simpa using hc)]
                simp
          · subst hres
            obtain ⟨ha, hb⟩ := ih ns fl hrest hfl
            constructor
            · rw [List.filter_cons, if_neg (by simpa using hc)]
              exact ha
            · rw [List.filter_cons, if_neg (by simpa using hc)]
              exact hb

/-- The boolean `resp.get("status") == "succeeded"` is true exactly when
the field is present and equal to the string `"succeeded"`. -/
theorem statusSucceeded_iff (o : Option Json) :
    statusSucceeded o = true ↔ o = some (Json.str "succeeded") := by
  cases o with
  | none => simp [statusSucceeded]
  | some v =>
    cases v with
    | str s => simp [statusSucceeded]
    | null => simp [statusSucceeded]
    | bool b => simp [statusSucceeded]
    | num n => simp [statusSucceeded]
    | arr xs => simp [statusSucceeded]
    | obj fs => simp [statusSucceeded]

end Helpers

/-- C7: for every discovery result whose stream list is empty,
`build_sync_catalog` fails immediately (with the no-streams error, which
precedes the filtering step: the result does not depend on the sync modes
or on any filtering outcome). -/
theorem c7_empty_discovery_fails (tables : List String) (sync_mode dest_sync_mode : Json) :
    build_sync_catalog [] tables sync_mode dest_sync_mode
      = .error (.noStreams tables) := rfl

/-- C4: for a discovery result with streams named A, B, C and the requested
table list `["A", "C"]`, `build_sync_catalog` returns exactly the entries
for A and C, in discovery order, each carrying the discovery-supplied JSON
schema, supported sync modes, cursor field and primary key, and the
caller-supplied sync mode and destination sync mode. -/
theorem c4_filter_order_fields (js₁ js₂ js₃ ssm₁ ssm₂ ssm₃ cf₁ pk₁ cf₃ pk₃
    sync_mode dest_sync_mode : Json) :
    build_sync_catalog
      [mkStreamEntry (.str "A") js₁ ssm₁ (some cf₁) (some pk₁),
       mkStreamEntry (.str "B") js₂ ssm₂ none none,
       mkStreamEntry (.str "C") js₃ ssm₃ (some cf₃) (some pk₃)]
      ["A", "C"] sync_mode dest_sync_mode
    = .ok (Json.obj [("streams", Json.arr
        [mkCatalogEntry (.str "A") js₁ ssm₁ sync_mode dest_sync_mode cf₁ pk₁,
         mkCatalogEntry (.str "C") js₃ ssm₃ sync_mode dest_sync_mode cf₃ pk₃])]) := rfl

/-- C1 fails as stated: a discovery result that lists the stream `A` twice,
with the requested tables `["A", "B"]`, passes the count check (2 = 2), so
`build_sync_catalog` succeeds — yet `B` appears zero times and `A` twice in
the returned catalog, and `B` was never discovered. -/
theorem c1_counterexample :
    build_sync_catalog
      [mkStreamEntry (.str "A") (.str "schA") (.arr []) none none,
       mkStreamEntry (.str "A") (.str "schA") (.arr []) none none]
      ["A", "B"] (.str "incremental") (.str "append_dedup")
    = .ok (Json.obj [("streams", Json.arr
        [mkCatalogEntry (.str "A") (.str "schA") (.arr [])
           (.str "incremental") (.str "append_dedup") (.arr []) (.arr []),
         mkCatalogEntry (.str "A") (.str "schA") (.arr [])
           (.str "incremental") (.str "append_dedup") (.arr []) (.arr [])])]) ∧
    (catalogNames
        [mkCatalogEntry (.str "A") (.str "schA") (.arr [])
           (.str "incremental") (.str "append_dedup") (.arr []) (.arr []),
         mkCatalogEntry (.str "A") (.str "schA") (.arr [])
           (.str "incremental") (.str "append_dedup") (.arr []) (.arr [])]).count "B" = 0 ∧
    (catalogNames
        [mkCatalogEntry (.str "A") (.str "schA") (.arr [])
           (.str "incremental") (.str "append_dedup") (.arr []) (.arr []),
         mkCatalogEntry (.str "A") (.str "schA") (.arr [])
           (.str "incremental") (.str "append_dedup") (.arr []) (.arr [])]).count "A" = 2 :=
  ⟨rfl, rfl, rfl⟩

/-- C1 (amended): provided the discovered streams' names are pairwise
distinct strings, whenever `build_sync_catalog` returns successfully every
requested table appears exactly once in the returned catalog's stream list
and the catalog's stream count equals the requested table count. -/
theorem c1_catalog_counts (all_streams : List Json) (tables : List String)
    (sync_mode dest_sync_mode : Json) (ss : List String) (cat : Json)
    (hss : entryNamesStr all_streams = some ss)
    (hnodup : ss.Nodup)
    (hok : build_sync_catalog all_streams tables sync_mode dest_sync_mode = .ok cat) :
    (catalogStreamList cat).length = tables.length ∧
    ∀ t ∈ tables, (catalogNames (catalogStreamList cat)).count t = 1 := by
  rw [build_sync_catalog] at hok
  by_cases hemp : all_streams.isEmpty
  · rw [if_pos hemp] at hok
    exact absurd hok (by simp)
  · rw [if_neg hemp] at hok
    cases hfl : filterStreams tables sync_mode dest_sync_mode all_streams with
    | error e => simp [hfl] at hok
    | ok filtered =>
      simp only [hfl] at hok
      by_cases hlen : filtered.length = tables.length
      · rw [if_pos hlen] at hok
        simp only [Except.ok.injEq] at hok
        subst hok
        have hsl : catalogStreamList (Json.obj [("streams", Json.arr filtered)]) = filtered := rfl
        obtain ⟨hn, hl⟩ :=
          filterStreams_names tables sync_mode dest_sync_mode all_streams ss filtered hss hfl
        refine ⟨by rw [hsl]; exact hlen, ?_⟩
        intro t ht
        rw [hsl, hn]
        exact count_filter_eq_one ss tables hnodup (by rw [← hl]; exact hlen) t ht
      · rw [if_neg hlen] at hok
        simp at hok

/-- C1 witness: a concrete successful build, on the distinct discovered
streams A, B and the requested tables `["A", "B"]`, in which the
theorem yields that `A` appears exactly once. -/
theorem c1_witness :
    (catalogNames (catalogStreamList (Json.obj [("streams", Json.arr
      [mkCatalogEntry (.str "A") .null (.arr []) (.str "m") (.str "d") (.arr []) (.arr []),
       mkCatalogEntry (.str "B") .null (.arr []) (.str "m") (.str "d") (.arr []) (.arr [])])]))).count "A"
      = 1 :=
  (c1_catalog_counts
    [mkStreamEntry (.str "A") .null (.arr []) none none,
     mkStreamEntry (.str "B") .null (.arr []) none none]
    ["A", "B"] (.str "m") (.str "d") ["A", "B"] _ rfl (by decide) rfl).2 "A" (by decide)

/-- C6 fails as stated: the requested list `["A", "X"]` contains the name
`X` that is absent from the discovery result, yet `build_sync_catalog` does
not fail at all — the duplicated discovered stream `A` makes the retained
count equal the requested count, so the build succeeds. -/
theorem c6_counterexample :
    build_sync_catalog
      [mkStreamEntry (.str "A") .null (.arr []) none none,
       mkStreamEntry (.str "A") .null (.arr []) none none]
      ["A", "X"] (.str "m") (.str "d")
    = .ok (Json.obj [("streams", Json.arr
        [mkCatalogEntry (.str "A") .null (.arr []) (.str "m") (.str "d") (.arr []) (.arr []),
         mkCatalogEntry (.str "A") .null (.arr []) (.str "m") (.str "d") (.arr []) (.arr [])])]) :=
  rfl

/-- C6 (amended): provided the discovery result is non-empty, its stream
entries are individually well-formed (the filtering pass succeeds) and
their names are pairwise distinct strings, a requested table list
containing a name absent from discovery makes `build_sync_catalog` fail
with the missing-tables error whose set is exactly the set difference
between the requested names and the retained (equivalently, discovered)
names, and which contains the absent name. -/
theorem c6_missing_tables_error (all_streams : List Json) (tables : List String)
    (sync_mode dest_sync_mode : Json) (ss : List String) (t : String)
    (hemp : all_streams.isEmpty = false)
    (hss : entryNamesStr all_streams = some ss)
    (hnodup : ss.Nodup)
    (hfl : ∃ fl, filterStreams tables sync_mode dest_sync_mode all_streams = .ok fl)
    (ht : t ∈ tables) (habs : t ∉ ss) :
    build_sync_catalog all_streams tables sync_mode dest_sync_mode
      = .error (.missingTables ((tables.filter (fun x => !ss.contains x)).toFinset)) ∧
    t ∈ (tables.filter (fun x => !ss.contains x)).toFinset := by
  obtain ⟨fl, hfl⟩ := hfl
  obtain ⟨hn, hl⟩ :=
    filterStreams_names tables sync_mode dest_sync_mode all_streams ss fl hss hfl
  have hlt : fl.length < tables.length := by
    rw [hl]
    exact filter_length_lt ss tables hnodup t ht habs
  constructor
  · rw [build_sync_catalog, if_neg (by simp [hemp])]
    simp only [hfl]
    rw [if_neg (Nat.ne_of_lt hlt)]
    have hfin : (tables.filter (fun x => !(catalogNames fl).contains x)).toFinset
        = (tables.filter (fun x => !ss.contains x)).toFinset := by
      apply Finset.ext
      intro x
      simp [List.mem_filter, hn]
      tauto
    rw [hfin]
  · rw [List.mem_toFinset, List.mem_filter]
    exact ⟨ht, by simpa using habs⟩

/-- C6 witness: the concrete discovery `[A]` with requested tables
`["A", "B"]` fails naming exactly `{B}`. -/
theorem c6_witness :
    build_sync_catalog [mkStreamEntry (.str "A") .null (.arr []) none none]
      ["A", "B"] (.str "m") (.str "d")
      = .error (.missingTables ((["A", "B"].filter (fun x => !(["A"].contains x))).toFinset)) ∧
    "B" ∈ ((["A", "B"].filter (fun x => !(["A"].contains x))).toFinset : Finset String) :=
  c6_missing_tables_error [mkStreamEntry (.str "A") .null (.arr []) none none]
    ["A", "B"] (.str "m") (.str "d") ["A"] "B" rfl rfl (by decide)
    ⟨[mkCatalogEntry (.str "A") .null (.arr []) (.str "m") (.str "d") (.arr []) (.arr [])], rfl⟩
    (by decide) (by decide)

/-- C5 fails as stated: a response whose body is well-formed JSON (the
array `[]`) with the success status 200 does not yield `false` — the
`resp.get("status")` call raises `AttributeError`, which the client does
not convert into a result. -/
theorem c5_counterexample :
    check_source apiUrl ⟨200, "[]", some (.arr [])⟩ = .error (.otherError "AttributeError") ∧
    check_destination apiUrl ⟨200, "[]", some (.arr [])⟩ = .error (.otherError "AttributeError") :=
  ⟨rfl, rfl⟩

/-- C5 (amended): for every response to `check_source` or
`check_destination` whose body is a well-formed JSON object and whose HTTP
status is in the success range, the call returns (without raising) a
boolean that is true if and only if the response's `status` field is
exactly the string `"succeeded"` — any other value, including an absent
field, yields `false`. -/
theorem c5_check_status_iff (u : String) (r : HttpResponse) (fs : List (String × Json))
    (hb : r.body = some (Json.obj fs)) (hok : r.ok = true) :
    (check_source u r = .ok (statusSucceeded (fs.lookup "status")) ∧
      (statusSucceeded (fs.lookup "status") = true ↔
        fs.lookup "status" = some (Json.str "succeeded"))) ∧
    (check_destination u r = .ok (statusSucceeded (fs.lookup "status")) ∧
      (statusSucceeded (fs.lookup "status") = true ↔
        fs.lookup "status" = some (Json.str "succeeded"))) := by
  refine ⟨⟨?_, statusSucceeded_iff _⟩, ⟨?_, statusSucceeded_iff _⟩⟩
  · simp [check_source, postRequest, hb, hok, Json.getOpt]
  · simp [check_destination, postRequest, hb, hok, Json.getOpt]

/-- C5 witness: a concrete success-status object body with
`status = "succeeded"` makes `check_source` return `true`. -/
theorem c5_witness :
    check_source apiUrl ⟨200, "", some (Json.obj [("status", Json.str "succeeded")])⟩
      = .ok true :=
  ((c5_check_status_iff apiUrl ⟨200, "", some (Json.obj [("status", Json.str "succeeded")])⟩
    [("status", Json.str "succeeded")] rfl rfl).1).1

/-- C9: for every HTTP response whose body is not well-formed JSON, `_post`
and `_get` raise `AirbyteAPIError` with a message that embeds the raw body
text, regardless of the HTTP status. -/
theorem c9_non_json_error (u p₁ p₂ : String) (r : HttpResponse) (hb : r.body = none) :
    postRequest u p₁ r
      = .error (.airbyteAPIError ("Non-JSON response from " ++ (u ++ p₁) ++ ": " ++ r.text)) ∧
    strContains ("Non-JSON response from " ++ (u ++ p₁) ++ ": " ++ r.text) r.text ∧
    getRequest u p₂ r
      = .error (.airbyteAPIError ("Non-JSON response from " ++ (u ++ p₂) ++ ": " ++ r.text)) ∧
    strContains ("Non-JSON response from " ++ (u ++ p₂) ++ ": " ++ r.text) r.text := by
  refine ⟨by simp [postRequest, hb], ?_, by simp [getRequest, hb], ?_⟩
  · refine strContains_chunk ("Non-JSON response from " ++ (u ++ p₁) ++ ": ") r.text "" _ ?_
    simp [String.data_append, List.append_assoc]
  · refine strContains_chunk ("Non-JSON response from " ++ (u ++ p₂) ++ ": ") r.text "" _ ?_
    simp [String.data_append, List.append_assoc]

/-- C9 witness: a concrete status-200 response with the non-JSON body
`<html>` raises the non-JSON transport error embedding that body. -/
theorem c9_witness :
    postRequest apiUrl "/sources/create" ⟨200, "<html>", none⟩
      = .error (.airbyteAPIError
          ("Non-JSON response from " ++ (apiUrl ++ "/sources/create") ++ ": " ++ "<html>")) :=
  (c9_non_json_error apiUrl "/sources/create" "/connections/get" ⟨200, "<html>", none⟩ rfl).1

/-- C3 fails as stated: a response with error status 500 whose body is
well-formed JSON but not an object (the array `[1]`) does not raise
`AirbyteAPIError` — the `payload.get("message")` call raises
`AttributeError` instead. -/
theorem c3_counterexample :
    postRequest apiUrl "/sources/create" ⟨500, "[1]", some (Json.arr [Json.num 1])⟩
      = .error (.otherError "AttributeError") ∧
    PyErr.isAirbyteAPIError (.otherError "AttributeError") = false :=
  ⟨rfl, rfl⟩

/-- C3 (amended): for every HTTP response whose status is outside the
success range and whose body parses as a JSON object, `_post` and `_get`
raise `AirbyteAPIError` with a message embedding the HTTP method, the path,
the status code, and either the truthy `message` field of the body or the
rendering of the whole body. -/
theorem c3_http_error_message (u p₁ p₂ : String) (r : HttpResponse) (fs : List (String × Json))
    (hb : r.body = some (Json.obj fs)) (hok : r.ok = false) :
    (∃ m, postRequest u p₁ r = .error (.airbyteAPIError m) ∧
      strContains m "POST" ∧ strContains m p₁ ∧ strContains m (toString r.status_code) ∧
      ((∃ v, fs.lookup "message" = some v ∧ v.falsy = false ∧ strContains m (Json.render v)) ∨
        strContains m (Json.render (Json.obj fs)))) ∧
    (∃ m, getRequest u p₂ r = .error (.airbyteAPIError m) ∧
      strContains m "GET" ∧ strContains m p₂ ∧ strContains m (toString r.status_code) ∧
      ((∃ v, fs.lookup "message" = some v ∧ v.falsy = false ∧ strContains m (Json.render v)) ∨
        strContains m (Json.render (Json.obj fs)))) := by
  constructor
  · refine ⟨httpErrMsg "POST" p₁ r.status_code
      (Json.render (pyOrD (fs.lookup "message") (Json.obj fs))), ?_, ?_, ?_, ?_, ?_⟩
    · simp [postRequest, hb, hok, Json.getOpt]
    · refine strContains_chunk "Airbyte API " "POST"
        (" " ++ p₁ ++ " → HTTP " ++ toString r.status_code ++ ": " ++
          Json.render (pyOrD (fs.lookup "message") (Json.obj fs))) _ ?_
      simp [httpErrMsg, String.data_append, List.append_assoc]
    · refine strContains_chunk ("Airbyte API " ++ "POST" ++ " ") p₁
        (" → HTTP " ++ toString r.status_code ++ ": " ++
          Json.render (pyOrD (fs.lookup "message") (Json.obj fs))) _ ?_
      simp [httpErrMsg, String.data_append, List.append_assoc]
    · refine strContains_chunk ("Airbyte API " ++ "POST" ++ " " ++ p₁ ++ " → HTTP ")
        (toString r.status_code)
        (": " ++ Json.render (pyOrD (fs.lookup "message") (Json.obj fs))) _ ?_
      simp [httpErrMsg, String.data_append, List.append_assoc]
    · cases hm : fs.lookup "message" with
      | none =>
        refine Or.inr ?_
        refine strContains_chunk
          ("Airbyte API " ++ "POST" ++ " " ++ p₁ ++ " → HTTP " ++ toString r.status_code ++ ": ")
          (Json.render (Json.obj fs)) "" _ ?_
        simp [httpErrMsg, hm, pyOrD, String.data_append, List.append_assoc]
      | some v =>
        by_cases hv : v.falsy
        · refine Or.inr ?_
          refine strContains_chunk
            ("Airbyte API " ++ "POST" ++ " " ++ p₁ ++ " → HTTP " ++ toString r.status_code ++ ": ")
            (Json.render (Json.obj fs)) "" _ ?_
          simp [httpErrMsg, hm, pyOrD, hv, String.data_append, List.append_assoc]
        · refine Or.inl ⟨v, rfl, by simpa using hv, ?_⟩
          refine strContains_chunk
            ("Airbyte API " ++ "POST" ++ " " ++ p₁ ++ " → HTTP " ++ toString r.status_code ++ ": ")
            (Json.render v) "" _ ?_
          simp [httpErrMsg, hm, pyOrD, hv, String.data_append, List.append_assoc]
  · refine ⟨httpErrMsg "GET" p₂ r.status_code
      (Json.render (pyOrD (fs.lookup "message") (Json.obj fs))), ?_, ?_, ?_, ?_, ?_⟩
    · simp [getRequest, hb, hok, Json.getOpt]
    · refine strContains_chunk "Airbyte API " "GET"
        (" " ++ p₂ ++ " → HTTP " ++ toString r.status_code ++ ": " ++
          Json.render (pyOrD (fs.lookup "message") (Json.obj fs))) _ ?_
      simp [httpErrMsg, String.data_append, List.append_assoc]
    · refine strContains_chunk ("Airbyte API " ++ "GET" ++ " ") p₂
        (" → HTTP " ++ toString r.status_code ++ ": " ++
          Json.render (pyOrD (fs.lookup "message") (Json.obj fs))) _ ?_
      simp [httpErrMsg, String.data_append, List.append_assoc]
    · refine strContains_chunk ("Airbyte API " ++ "GET" ++ " " ++ p₂ ++ " → HTTP ")
        (toString r.status_code)
        (": " ++ Json.render (pyOrD (fs.lookup "message") (Json.obj fs))) _ ?_
      simp [httpErrMsg, String.data_append, List.append_assoc]
    · cases hm : fs.lookup "message" with
      | none =>
        refine Or.inr ?_
        refine strContains_chunk
          ("Airbyte API " ++ "GET" ++ " " ++ p₂ ++ " → HTTP " ++ toString r.status_code ++ ": ")
          (Json.render (Json.obj fs)) "" _ ?_
        simp [httpErrMsg, hm, pyOrD, String.data_append, List.append_assoc]
      | some v =>
        by_cases hv : v.falsy
        · refine Or.inr ?_
          refine strContains_chunk
            ("Airbyte API " ++ "GET" ++ " " ++ p₂ ++ " → HTTP " ++ toString r.status_code ++ ": ")
            (Json.render (Json.obj fs)) "" _ ?_
          simp [httpErrMsg, hm, pyOrD, hv, String.data_append, List.append_assoc]
        · refine Or.inl ⟨v, rfl, by simpa using hv, ?_⟩
          refine strContains_chunk
            ("Airbyte API " ++ "GET" ++ " " ++ p₂ ++ " → HTTP " ++ toString r.status_code ++ ": ")
            (Json.render v) "" _ ?_
          simp [httpErrMsg, hm, pyOrD, hv, String.data_append, List.append_assoc]

/-- C3 witness: a concrete 404 object body with a truthy `message` field
raises `AirbyteAPIError` whose message embeds method, path, status and the
message field. -/
theorem c3_witness :
    ∃ m, postRequest apiUrl "/x" ⟨404, "", some (Json.obj [("message", Json.str "boom")])⟩
        = .error (.airbyteAPIError m) ∧
      strContains m "POST" ∧ strContains m "/x" ∧
      strContains m (toString (404 : Nat)) := by
  obtain ⟨m, h1, h2, h3, h4, _⟩ :=
    (c3_http_error_message apiUrl "/x" "/y"
      ⟨404, "", some (Json.obj [("message", Json.str "boom")])⟩
      [("message", Json.str "boom")] rfl rfl).1
  exact ⟨m, h1, h2, h3, h4⟩

/-- C8: for every call to `discover_schema`, the optional filter fields are
put into the request payload only when at least one of them is truthy, and
then they are nested under one `schema` object containing exactly those of
`database`, `schema` and `tables` that were supplied non-empty. -/
theorem c8_discover_filter_payload (sid : String) (db sch : Option String)
    (tbls : Option (List String)) :
    ((optStrTruthy db || optStrTruthy sch || optListTruthy tbls) = false →
      discover_schema_payload sid db sch tbls
        = Json.obj [("sourceId", Json.str sid), ("connectorType", Json.str "source")]) ∧
    ((optStrTruthy db || optStrTruthy sch || optListTruthy tbls) = true →
      ∃ f, discover_schema_payload sid db sch tbls
          = Json.obj [("sourceId", Json.str sid), ("connectorType", Json.str "source"),
              ("schema", Json.obj f)] ∧
        f.map Prod.fst = (if optStrTruthy db then ["database"] else []) ++
          (if optStrTruthy sch then ["schema"] else []) ++
          (if optListTruthy tbls then ["tables"] else []) ∧
        f.lookup "database" = (if optStrTruthy db then some (Json.str (db.getD "")) else none) ∧
        f.lookup "schema" = (if optStrTruthy sch then some (Json.str (sch.getD "")) else none) ∧
        f.lookup "tables" =
          (if optListTruthy tbls then some (Json.arr ((tbls.getD []).map Json.str)) else none)) := by
  constructor
  · intro h
    rw [discover_schema_payload, if_neg (by simp [h])]
  · intro h
    refine ⟨_, by rw [discover_schema_payload, if_pos (by simp [h])], ?_, ?_, ?_, ?_⟩ <;>
      cases hd : optStrTruthy db <;> cases hs : optStrTruthy sch <;>
        cases ht : optListTruthy tbls <;>
      simp_all [List.lookup]

/-- C8 witness: with no filter argument supplied, the payload is exactly
the two base fields. -/
theorem c8_witness :
    discover_schema_payload "src-1" none none none
      = Json.obj [("sourceId", Json.str "src-1"), ("connectorType", Json.str "source")] :=
  (c8_discover_filter_payload "src-1" none none none).1 rfl

/-- C2 fails as stated: in a run whose connection.yaml lacks the required
`tables` key (everything else well-formed, every remote call succeeding),
the missing-key error is reported and the run aborts — but only after the
four source/destination remote API calls were already made, because `main`
loads connection.yaml after creating and validating both resources. -/
theorem c2_counterexample :
    mainRun envAll mssqlCfgOk snowCfgOk connCfgNoTables oracleHappy
      = (.fail "connection.yaml missing key: tables",
         ["/sources/create", "/sources/check_connection", "/destinations/create",
          "/destinations/check_connection"]) := rfl

/-- C2 (amended): a missing required environment value, and a missing
required key in the first-loaded mssql_source.yaml document, are reported
and abort the run before any remote API call is made; a missing required
key in a later-loaded document is reported and aborts the run before any
further remote API call — after exactly the two source calls for
snowflake_destination.yaml, and after exactly the four source/destination
calls for connection.yaml. -/
theorem c2_config_error_abort :
    (∀ env mssqlCfg snowCfg connCfg o v,
      envCheck env = some v →
      mainRun env mssqlCfg snowCfg connCfg o
        = (.fail ("Missing required environment variable: " ++ v), [])) ∧
    (∀ env mssqlCfg snowCfg connCfg o k,
      envCheck env = none →
      cfgExtract3 mssqlCfg "name" "definitionId" "connectionConfiguration"
        = .error (.keyError k) →
      mainRun env mssqlCfg snowCfg connCfg o
        = (.fail ("mssql_source.yaml missing key: " ++ k), [])) ∧
    (∀ env mssqlCfg snowCfg connCfg o k src sid,
      envCheck env = none →
      cfgExtract3 mssqlCfg "name" "definitionId" "connectionConfiguration" = .ok src →
      create_source apiUrl o.createSourceResp = .ok sid →
      check_source apiUrl o.checkSourceResp = .ok true →
      cfgExtract3 snowCfg "name" "definitionId" "connectionConfiguration"
        = .error (.keyError k) →
      mainRun env mssqlCfg snowCfg connCfg o
        = (.fail ("snowflake_destination.yaml missing key: " ++ k),
           ["/sources/create", "/sources/check_connection"])) ∧
    (∀ env mssqlCfg snowCfg connCfg o k src sid dst did,
      envCheck env = none →
      cfgExtract3 mssqlCfg "name" "definitionId" "connectionConfiguration" = .ok src →
      create_source apiUrl o.createSourceResp = .ok sid →
      check_source apiUrl o.checkSourceResp = .ok true →
      cfgExtract3 snowCfg "name" "definitionId" "connectionConfiguration" = .ok dst →
      create_destination apiUrl o.createDestinationResp = .ok did →
      check_destination apiUrl o.checkDestinationResp = .ok true →
      connKeyError connCfg = some k →
      mainRun env mssqlCfg snowCfg connCfg o
        = (.fail ("connection.yaml missing key: " ++ k),
           ["/sources/create", "/sources/check_connection", "/destinations/create",
            "/destinations/check_connection"])) := by
  refine ⟨?_, ?_, ?_, ?_⟩
  · intro env mssqlCfg snowCfg connCfg o v h
    simp [mainRun, h]
  · intro env mssqlCfg snowCfg connCfg o k h1 h2
    simp [mainRun, h1, h2]
  · intro env mssqlCfg snowCfg connCfg o k src sid henv hmsq hcs hchk hsnow
    simp [mainRun, henv, hmsq, hcs, hchk, hsnow]
  · intro env mssqlCfg snowCfg connCfg o k src sid dst did
      henv hmsq hcs hchk hsnow hcd hchkd hconn
    simp only [mainRun, henv, hmsq, hcs, hchk, hsnow, hcd, hchkd]
    cases h1 : connCfg.index "name" with
    | error e =>
      cases e with
      | keyError k1 =>
        simp only [connKeyError, h1, Option.some.injEq] at hconn
        subst hconn
        simp [h1]
      | airbyteAPIError m => simp [connKeyError, h1] at hconn
      | noStreams ts => simp [connKeyError, h1] at hconn
      | missingTables ms => simp [connKeyError, h1] at hconn
      | otherError m => simp [connKeyError, h1] at hconn
    | ok v1 =>
      cases h2 : connCfg.getOpt "namespaceFormat" with
      | error e => simp [connKeyError, h1, h2] at hconn
      | ok nsf =>
        cases h3 : connCfg.index "schedule" with
        | error e =>
          cases e with
          | keyError k1 =>
            simp only [connKeyError, h1, h2, h3, Option.some.injEq] at hconn
            subst hconn
            simp [h1, h2, h3]
          | airbyteAPIError m => simp [connKeyError, h1, h2, h3] at hconn
          | noStreams ts => simp [connKeyError, h1, h2, h3] at hconn
          | missingTables ms => simp [connKeyError, h1, h2, h3] at hconn
          | otherError m => simp [connKeyError, h1, h2, h3] at hconn
        | ok v3 =>
          cases h4 : connCfg.index "tables" with
          | error e =>
            cases e with
            | keyError k1 =>
              simp only [connKeyError, h1, h2, h3, h4, Option.some.injEq] at hconn
              subst hconn
              simp [h1, h2, h3, h4]
            | airbyteAPIError m => simp [connKeyError, h1, h2, h3, h4] at hconn
            | noStreams ts => simp [connKeyError, h1, h2, h3, h4] at hconn
            | missingTables ms => simp [connKeyError, h1, h2, h3, h4] at hconn
            | otherError m => simp [connKeyError, h1, h2, h3, h4] at hconn
          | ok v4 =>
            cases h5 : connCfg.index "syncMode" with
            | error e =>
              cases e with
              | keyError k1 =>
                simp only [connKeyError, h1, h2, h3, h4, h5, Option.some.injEq] at hconn
                subst hconn
                simp [h1, h2, h3, h4, h5]
              | airbyteAPIError m => simp [connKeyError, h1, h2, h3, h4, h5] at hconn
              | noStreams ts => simp [connKeyError, h1, h2, h3, h4, h5] at hconn
              | missingTables ms => simp [connKeyError, h1, h2, h3, h4, h5] at hconn
              | otherError m => simp [connKeyError, h1, h2, h3, h4, h5] at hconn
            | ok v5 =>
              cases h6 : connCfg.index "destinationSyncMode" with
              | error e =>
                cases e with
                | keyError k1 =>
                  simp only [connKeyError, h1, h2, h3, h4, h5, h6, Option.some.injEq] at hconn
                  subst hconn
                  simp [h1, h2, h3, h4, h5, h6]
                | airbyteAPIError m => simp [connKeyError, h1, h2, h3, h4, h5, h6] at hconn
                | noStreams ts => simp [connKeyError, h1, h2, h3, h4, h5, h6] at hconn
                | missingTables ms => simp [connKeyError, h1, h2, h3, h4, h5, h6] at hconn
                | otherError m => simp [connKeyError, h1, h2, h3, h4, h5, h6] at hconn
              | ok v6 => simp [connKeyError, h1, h2, h3, h4, h5, h6] at hconn

/-- C2 witness: four concrete runs, one per conjunct — the empty
environment and an empty mssql document abort with no remote call; an
empty snowflake document aborts after exactly the two source calls; the
schedule-less connection document aborts after exactly the four
source/destination calls. -/
theorem c2_witness :
    mainRun [] mssqlCfgOk snowCfgOk connCfgOk oracleHappy
      = (.fail ("Missing required environment variable: " ++ "AIRBYTE_API_TOKEN"), []) ∧
    mainRun envAll (Json.obj []) snowCfgOk connCfgOk oracleHappy
      = (.fail ("mssql_source.yaml missing key: " ++ "name"), []) ∧
    mainRun envAll mssqlCfgOk (Json.obj []) connCfgOk oracleHappy
      = (.fail ("snowflake_destination.yaml missing key: " ++ "name"),
         ["/sources/create", "/sources/check_connection"]) ∧
    mainRun envAll mssqlCfgOk snowCfgOk connCfgNoSchedule oracleHappy
      = (.fail ("connection.yaml missing key: " ++ "schedule"),
         ["/sources/create", "/sources/check_connection", "/destinations/create",
          "/destinations/check_connection"]) :=
  ⟨c2_config_error_abort.1 [] mssqlCfgOk snowCfgOk connCfgOk oracleHappy
     "AIRBYTE_API_TOKEN" rfl,
   c2_config_error_abort.2.1 envAll (Json.obj []) snowCfgOk connCfgOk oracleHappy
     "name" rfl rfl,
   c2_config_error_abort.2.2.1 envAll mssqlCfgOk (Json.obj []) connCfgOk oracleHappy
     "name" (.str "mssql-src", .str "def-src", Json.obj []) (.str "src-1")
     rfl rfl rfl rfl rfl,
   c2_config_error_abort.2.2.2 envAll mssqlCfgOk snowCfgOk connCfgNoSchedule oracleHappy
     "schedule" (.str "mssql-src", .str "def-src", Json.obj [])
     (.str "src-1") (.str "snowflake-dst", .str "def-dst", Json.obj []) (.str "dst-1")
     rfl rfl rfl rfl rfl rfl rfl rfl⟩

/-- C10: a success-status JSON object response lacking the expected
identifier field makes `create_source` / `create_destination` /
`create_connection` raise `KeyError`, not `AirbyteAPIError`; the
orchestrator's `except AirbyteAPIError` handlers do not catch it, so the
run ends with the uncaught `KeyError` (shown on two complete concrete
runs, one failing at source creation and one at connection creation). -/
theorem c10_keyerror_uncaught :
    (∀ (u : String) (r : HttpResponse) (fs : List (String × Json)),
      r.body = some (Json.obj fs) → r.ok = true → fs.lookup "sourceId" = none →
      create_source u r = .error (.keyError "sourceId")) ∧
    (∀ (u : String) (r : HttpResponse) (fs : List (String × Json)),
      r.body = some (Json.obj fs) → r.ok = true → fs.lookup "destinationId" = none →
      create_destination u r = .error (.keyError "destinationId")) ∧
    (∀ (u : String) (r : HttpResponse) (fs : List (String × Json)),
      r.body = some (Json.obj fs) → r.ok = true → fs.lookup "connectionId" = none →
      create_connection u r = .error (.keyError "connectionId")) ∧
    PyErr.isAirbyteAPIError (.keyError "sourceId") = false ∧
    mainRun envAll mssqlCfgOk snowCfgOk connCfgOk oracleNoSourceId
      = (.uncaught (.keyError "sourceId"), ["/sources/create"]) ∧
    mainRun envAll mssqlCfgOk snowCfgOk connCfgOk oracleNoConnectionId
      = (.uncaught (.keyError "connectionId"),
         ["/sources/create", "/sources/check_connection", "/destinations/create",
          "/destinations/check_connection", "/connections/discover_schema",
          "/connections/create"]) := by
  refine ⟨?_, ?_, ?_, rfl, rfl, rfl⟩
  · intro u r fs hb hok hmiss
    simp [create_source, postRequest, hb, hok, Json.index, hmiss]
  · intro u r fs hb hok hmiss
    simp [create_destination, postRequest, hb, hok, Json.index, hmiss]
  · intro u r fs hb hok hmiss
    simp [create_connection, postRequest, hb, hok, Json.index, hmiss]

/-- C10 witness: a concrete success-status object body without `sourceId`
makes `create_source` raise `KeyError`. -/
theorem c10_witness :
    create_source apiUrl ⟨200, "", some (Json.obj [("id", Json.str "src-1")])⟩
      = .error (.keyError "sourceId") :=
  c10_keyerror_uncaught.1 apiUrl ⟨200, "", some (Json.obj [("id", Json.str "src-1")])⟩
    [("id", Json.str "src-1")] rfl rfl rfl

end AirbyteSync
